import Mathlib

/-!
Verification development for the shared-scripts repository.

Shallow embedding of `scripts/github-utils/fetch-issue-complete.py` and of the
priority-classification loop of
`scripts/workflow-resources/issue-summary-report-reusable/collect-issue-stats.py`.

Python strings are modelled as `List Char` (`Str`).  Python exceptions that the
scripts inspect are modelled by the inductive `PyExc`; fallible operations
return `Except PyExc α`.  A network operation that may behave differently on
each call is modelled as a function from the attempt number (1-based) to its
outcome on that attempt.  `time.sleep` is modelled by recording the slept
delays in a trace list.
-/

/-- Python `str`, modelled as a list of characters. -/
abbrev Str := List Char

/-- Literal helper: a Lean string literal viewed as a `Str`. -/
def strOf (s : String) : Str := s.toList

/-- Python's substring test `needle in hay` on strings. -/
def hasSub (hay needle : Str) : Bool :=
  match hay with
  | [] => needle.isEmpty
  | _ :: rest => needle.isPrefixOf hay || hasSub rest needle

/-- The exception kinds distinguished by the scripts' `except` clauses:
`urllib.error.HTTPError` (carrying `code` and `reason`),
`urllib.error.URLError` (carrying `reason`), `TimeoutError`,
`OSError`, `json.JSONDecodeError`, and any other exception such as
`RuntimeError` (`otherError`). -/
inductive PyExc where
  | httpError (code : Nat) (reason : String)
  | urlError (reason : String)
  | timeoutError
  | osError (msg : String)
  | jsonError (msg : String)
  | otherError (msg : String)
deriving DecidableEq, Repr

/-- Which exceptions the retry decorator treats as transient: HTTP 502/503/504
(`if e.code in (502, 503, 504)`) and every `URLError`.  All other exceptions
fall into the `raise` branches of `retry_on_transient_errors`. -/
def isTransientExc : PyExc → Bool
  | .httpError c _ => c == 502 || c == 503 || c == 504
  | .urlError _ => true
  | _ => false

/-- True exactly for `HTTPError` and `URLError` values, the only exception
classes named by the decorator's retrying `except` clauses. -/
def isHttpOrUrlExc : PyExc → Bool
  | .httpError _ _ => true
  | .urlError _ => true
  | _ => false

/-- Transience of an operation outcome (an `ok` outcome is never transient). -/
def isTransientResult : Except PyExc α → Bool
  | .error e => isTransientExc e
  | .ok _ => false

/-- Outcome of running a wrapped operation under `retry_on_transient_errors`:
the final result (the returned value or the exception finally raised), the
number of calls made to the operation, and the list of delays passed to
`time.sleep`, in order. -/
structure RetryResult (α : Type) where
  result : Except PyExc α
  calls : Nat
  sleeps : List Nat
deriving Repr

def MAX_RETRIES : Nat := 5
def INITIAL_RETRY_DELAY : Nat := 1
def RETRY_BACKOFF_MULTIPLIER : Nat := 2

/-- The loop body of `retry_on_transient_errors`'s `wrapper`.  `attempt` is the
1-based attempt counter, `delay` the current `retry_delay`, and `rem` the
number of attempts still allowed including the current one (so the source's
`attempt < MAX_RETRIES` test is `rem > 1`).  The two retrying branches of the
source (transient `HTTPError`, and `URLError`) behave identically and are
expressed through `isTransientExc`; the non-transient `HTTPError` branch and
the final `except Exception: raise` both re-raise immediately.  The `rem = 0`
case is unreachable for `MAX_RETRIES = 5`. -/
def retryAux (op : Nat → Except PyExc α) : Nat → Nat → Nat → RetryResult α
  | _, _, 0 => ⟨.error (.otherError "unreachable: zero attempts"), 0, []⟩
  | attempt, delay, rem + 1 =>
    match op attempt with
    | .ok v => ⟨.ok v, 1, []⟩
    | .error e =>
      if isTransientExc e then
        match rem with
        | 0 => ⟨.error e, 1, []⟩
        | rem2 + 1 =>
          let r := retryAux op (attempt + 1) (delay * RETRY_BACKOFF_MULTIPLIER) (rem2 + 1)
          ⟨r.result, r.calls + 1, delay :: r.sleeps⟩
      else ⟨.error e, 1, []⟩

/-- `retry_on_transient_errors` applied to an operation: run it starting at
attempt 1 with the initial delay and `MAX_RETRIES` attempts allowed. -/
def retry_on_transient_errors (op : Nat → Except PyExc α) : RetryResult α :=
  retryAux op 1 INITIAL_RETRY_DELAY MAX_RETRIES

/-! ## Attachment extractor (`AttachmentExtractor`) -/

/-- The fixed allow-list `attachment_domains` of `_is_attachment_url`. -/
def attachment_domains : List Str :=
  [strOf "user-attachments.githubusercontent.com",
   strOf "private-user-images.githubusercontent.com",
   strOf "github-production-user-asset"]

/-- `_is_attachment_url`: `if not url: return False`, then
`any(domain in url for domain in attachment_domains)` — a substring test
against the whole URL. -/
def is_attachment_url (url : Str) : Bool :=
  if url.isEmpty then false
  else attachment_domains.any (fun d => hasSub url d)

/-- The character class `[a-f0-9-]` of the first filename regex. -/
def isHexLD (c : Char) : Bool := (strOf "abcdef0123456789-").contains c

/-- The character class `\w` of the filename regexes, modelled over ASCII
(letters, digits, underscore). -/
def isWordChar (c : Char) : Bool := c.isAlphanum || c == '_'

/-- The character class `[^/?]` of the fallback filename regex. -/
def isSegChar (c : Char) : Bool := c != '/' && c != '?'

/-- The terminator `(?:\?|$)` of both filename regexes: the match (with
captured group `g`) succeeds exactly at the end of the string or before a
`?`. -/
def matchFin (g : Str) : Str → Option Str
  | [] => some g
  | t :: _ => if t = '?' then some g else none

/-- The part of the first filename regex after the `[a-f0-9-]+` run: a dot,
then a nonempty `[\w]+` run, then the terminator. -/
def match1Tail (arun : Str) : Str → Option Str
  | [] => none
  | d :: r2 =>
    if d = '.' then
      let wrun := r2.takeWhile isWordChar
      if wrun = [] then none
      else matchFin (arun ++ d :: wrun) (r2.dropWhile isWordChar)
    else none

/-- Matching `/([a-f0-9-]+\.[\w]+)(?:\?|$)` at the head of `l`, returning the
captured group.  The greedy runs are deterministic here because `.` is not in
`[a-f0-9-]` and `?` is in neither class, so no backtracking can succeed where
the maximal runs fail. -/
def match1At (l : Str) : Option Str :=
  match l with
  | [] => none
  | c :: rest =>
    if c = '/' then
      let arun := rest.takeWhile isHexLD
      if arun = [] then none
      else match1Tail arun (rest.dropWhile isHexLD)
    else none

/-- `re.search` with the first filename pattern: try each start position from
the left, returning the leftmost match's captured group. -/
def search1 : Str → Option Str
  | [] => none
  | c :: rest =>
    match match1At (c :: rest) with
    | some g => some g
    | none => search1 rest

/-- Matching the fallback pattern `/([^/?]+)(?:\?|$)` at the head of `l`. -/
def match2At (l : Str) : Option Str :=
  match l with
  | [] => none
  | c :: rest =>
    if c = '/' then
      let seg := rest.takeWhile isSegChar
      if seg = [] then none
      else matchFin seg (rest.dropWhile isSegChar)
    else none

/-- `re.search` with the fallback filename pattern. -/
def search2 : Str → Option Str
  | [] => none
  | c :: rest =>
    match match2At (c :: rest) with
    | some g => some g
    | none => search2 rest

/-- `_extract_filename`: first regex, then the fallback regex, then the
`'unknown_file'` placeholder. -/
def extract_filename (url : Str) : Str :=
  match search1 url with
  | some g => g
  | none =>
    match search2 url with
    | some g => g
    | none => strOf "unknown_file"

/-- `re.search(r'\.(\w+)$', filename)`: the leftmost dot followed by a
nonempty all-word-character suffix reaching the end of the string. -/
def extSearch : Str → Option Str
  | [] => none
  | c :: rest =>
    if c = '.' then
      if rest ≠ [] ∧ rest.all isWordChar then some rest else extSearch rest
    else extSearch rest

/-- `_extract_file_type`: lowercased extension of the derived filename, or
`'unknown'`. -/
def extract_file_type (url : Str) : Str :=
  match extSearch (extract_filename url) with
  | some ext => ext.map Char.toLower
  | none => strOf "unknown"

/-- Python `int(...)` string whitespace, as stripped before parsing
(ASCII whitespace model). -/
def isPySpace (c : Char) : Bool :=
  c == ' ' || c == '\t' || c == '\n' || c == '\r' || c == '\x0b' || c == '\x0c'

/-- Digit run of a Python integer literal, with single underscores allowed
between digits, accumulating the value. -/
def pyDigitsVal (acc : Nat) : Str → Option Nat
  | [] => some acc
  | '_' :: c :: rest =>
    if c.isDigit then pyDigitsVal (acc * 10 + (c.toNat - 48)) rest else none
  | c :: rest =>
    if c.isDigit then pyDigitsVal (acc * 10 + (c.toNat - 48)) rest else none

/-- A nonempty digit run (no leading underscore). -/
def pyDigitsStart : Str → Option Nat
  | [] => none
  | c :: rest => if c.isDigit then pyDigitsVal (c.toNat - 48) rest else none

/-- Python `int(s)` on a string: strip whitespace, optional sign, digits
(with underscores); `none` models a raised `ValueError`. -/
def pyIntParse (s : Str) : Option Int :=
  let t := ((s.dropWhile isPySpace).reverse.dropWhile isPySpace).reverse
  match t with
  | '+' :: rest => (pyDigitsStart rest).map Int.ofNat
  | '-' :: rest => (pyDigitsStart rest).map (fun n => -(Int.ofNat n))
  | rest => (pyDigitsStart rest).map Int.ofNat

/-- The `dimensions` dict built by `_extract_dimensions`: each key is present
only when the corresponding attribute parsed as an integer. -/
structure Dimensions where
  width : Option Int
  height : Option Int
deriving DecidableEq, Repr

/-- Last-occurrence lookup, as in `dict(attrs)` (a later duplicate attribute
overwrites an earlier one). -/
def lookupLast : List (Str × Str) → Str → Option Str
  | [], _ => none
  | (k, v) :: rest, key =>
    match lookupLast rest key with
    | some v2 => some v2
    | none => if k == key then some v else none

/-- `attrs_dict.get(key, '')`. -/
def pyDictGetD (attrs : List (Str × Str)) (key : Str) : Str :=
  match lookupLast attrs key with
  | some v => v
  | none => []

/-- Truthiness of `attrs.get(key)`: `None` and the empty string are falsy. -/
def truthyGet (v : Option Str) : Bool :=
  match v with
  | none => false
  | some s => !s.isEmpty

/-- `_extract_dimensions`: read `width`/`height` attributes; values that fail
`int(...)` are silently dropped; an empty result dict becomes `None`.
Valueless HTML attributes (value `None`) behave like absent ones here and are
not modelled separately. -/
def extract_dimensions (attrs : List (Str × Str)) : Option Dimensions :=
  let width := lookupLast attrs (strOf "width")
  let height := lookupLast attrs (strOf "height")
  if truthyGet width || truthyGet height then
    let w : Option Int := if truthyGet width then pyIntParse (width.getD []) else none
    let h : Option Int := if truthyGet height then pyIntParse (height.getD []) else none
    if w.isSome || h.isSome then some ⟨w, h⟩ else none
  else none

/-- A start-tag event delivered by `HTMLParser` to `handle_starttag`: the
(lowercased) tag name and its attribute list. -/
structure TagEvent where
  tag : Str
  attrs : List (Str × Str)
deriving DecidableEq, Repr

/-- The attachment dict appended by `handle_starttag`. -/
structure Attachment where
  url : Str
  filename : Str
  file_type : Str
  dimensions : Option Dimensions
  tag_type : Str
deriving DecidableEq, Repr

/-- `handle_starttag`: `img` tags contribute through `src` (with dimensions),
`a` tags through `href` (never with dimensions), all other tags nothing. -/
def handle_starttag (ev : TagEvent) : Option Attachment :=
  if ev.tag = strOf "img" then
    let src := pyDictGetD ev.attrs (strOf "src")
    if is_attachment_url src then
      some { url := src, filename := extract_filename src,
             file_type := extract_file_type src,
             dimensions := extract_dimensions ev.attrs, tag_type := strOf "img" }
    else none
  else if ev.tag = strOf "a" then
    let href := pyDictGetD ev.attrs (strOf "href")
    if is_attachment_url href then
      some { url := href, filename := extract_filename href,
             file_type := extract_file_type href,
             dimensions := none, tag_type := strOf "a" }
    else none
  else none

/-- `extract_attachments_from_html`, at the start-tag event level: empty input
yields no attachments, otherwise each event contributes its attachment, in
document order.  (Tokenizer failures of the Python `HTMLParser`, which the
source turns into an empty result, are below the event-level model.) -/
def extract_attachments_from_html (events : List TagEvent) : List Attachment :=
  if events.isEmpty then []
  else events.filterMap handle_starttag

/-- Modelled from the spec: the host component of a URL — the text after the
`://` scheme separator and before the next `/`, `:`, `?` or `#`.  The source
never computes a host (its allow-list test is a plain substring test); this
definition exists only to state the spec's host-based claim against the
code's behaviour. -/
def specUrlHost (url : Str) : Str :=
  (specAfterScheme url).takeWhile
    (fun c => c != '/' && c != ':' && c != '?' && c != '#')
where
  /-- Drop everything through the first `://`. -/
  specAfterScheme : Str → Str
    | ':' :: '/' :: '/' :: rest => rest
    | _ :: rest => specAfterScheme rest
    | [] => []

/-! ## Paginated comment fetcher (`fetch_comments_html`, `_fetch_comments_page`) -/

/-- One raw comment object as returned by the comments API page. -/
structure RawComment where
  id : Nat
  user : Option Str
  created_at : Str
  body : Str
  body_html : List TagEvent
deriving DecidableEq, Repr

/-- The `comment_info` dict accumulated by `fetch_comments_html`. -/
structure CommentInfo where
  comment_id : Nat
  author : Str
  created_at : Str
  body : Str
  body_html : List TagEvent
  attachments : List Attachment
deriving DecidableEq, Repr

/-- Building one `comment_info`: the author falls back to `'ghost'` when
`comment.get('user')` is falsy, and the comment's rendered body is fed to the
attachment extractor on receipt. -/
def processComment (c : RawComment) : CommentInfo :=
  { comment_id := c.id,
    author := match c.user with | some u => u | none => strOf "ghost",
    created_at := c.created_at,
    body := c.body,
    body_html := c.body_html,
    attachments := extract_attachments_from_html c.body_html }

/-- The API URL built for one comments page:
`.../comments?per_page=100&page=N` (the fixed page size 100 and the 1-indexed
page number). -/
def commentsUrl (repo : Str) (issue : Nat) (page : Nat) : Str :=
  strOf "https://api.github.com/repos/" ++ repo ++ strOf "/issues/" ++
    strOf (toString issue) ++ strOf "/comments?per_page=100&page=" ++
    strOf (toString page)

/-- The `except` clauses of `fetch_comments_html`'s loop: `HTTPError`,
`URLError` and `JSONDecodeError` become wrapped `RuntimeError`s; any other
exception propagates unchanged. -/
def wrapCommentsError : PyExc → PyExc
  | .httpError c r =>
    .otherError ("Failed to fetch comments: HTTP " ++ toString c ++ " - " ++ r)
  | .urlError r => .otherError ("Failed to fetch comments: " ++ r)
  | .jsonError _ => .otherError "Invalid JSON response from GitHub API"
  | e => e

/-- The `while True` page loop of `fetch_comments_html`.  `pageFetch` is the
result of one (already retry-wrapped) `_fetch_comments_page` call on a given
URL: the parsed comment list and the `rel="next"` flag from the `Link`
header.  The result pairs the outcome (all comments, or the propagated
exception, partial pages discarded) with the number of page requests made.
`fuel` bounds the recursion; `none` marks fuel exhaustion (the Python loop
has no such bound). -/
def fetchCommentsAux (repo : Str) (issue : Nat)
    (pageFetch : Str → Except PyExc (List RawComment × Bool)) :
    Nat → Nat → Option (Except PyExc (List CommentInfo) × Nat)
  | 0, _ => none
  | fuel + 1, page =>
    match pageFetch (commentsUrl repo issue page) with
    | .error e => some (.error (wrapCommentsError e), 1)
    | .ok (data, hasNext) =>
      if data.isEmpty then some (.ok [], 1)
      else
        let infos := data.map processComment
        if hasNext then
          match fetchCommentsAux repo issue pageFetch fuel (page + 1) with
          | some (.ok rest, n) => some (.ok (infos ++ rest), n + 1)
          | some (.error e2, n) => some (.error e2, n + 1)
          | none => none
        else some (.ok infos, 1)

/-- `fetch_comments_html`: run the page loop from page 1, each page fetched
through `_fetch_comments_page`, which is wrapped by
`retry_on_transient_errors` (the raw backend is indexed by URL and attempt
number). -/
def fetch_comments_html (repo : Str) (issue : Nat)
    (rawBackend : Str → Nat → Except PyExc (List RawComment × Bool))
    (fuel : Nat) : Option (Except PyExc (List CommentInfo) × Nat) :=
  fetchCommentsAux repo issue
    (fun url => (retry_on_transient_errors (rawBackend url)).result) fuel 1

/-! ## Issue fetch (`fetch_issue_html`) -/

/-- The `try/except` body of `fetch_issue_html` around one attempt: every
`HTTPError`, `URLError`, `JSONDecodeError` or other exception is converted
into a `RuntimeError` (`otherError`) before it can leave the function. The
HTTP response body text read for the messages is not modelled. -/
def fetchIssueAttempt (resp : Except PyExc α) : Except PyExc α :=
  match resp with
  | .ok v => .ok v
  | .error (.httpError c r) =>
    if c = 401 then
      .error (.otherError "Authentication failed (401): Invalid GitHub token.")
    else if c = 403 then
      .error (.otherError "Forbidden (403): Access denied.")
    else if c = 404 then
      .error (.otherError "Not found (404): issue does not exist or is inaccessible.")
    else
      .error (.otherError ("HTTP error " ++ toString c ++ ": " ++ r))
  | .error (.urlError r) =>
    .error (.otherError ("Network error: Failed to connect to GitHub API. Details: " ++ r))
  | .error (.jsonError m) =>
    .error (.otherError ("Invalid JSON response from GitHub API: " ++ m))
  | .error .timeoutError =>
    .error (.otherError "Unexpected error fetching issue data: timed out")
  | .error (.osError m) =>
    .error (.otherError ("Unexpected error fetching issue data: " ++ m))
  | .error (.otherError m) =>
    .error (.otherError ("Unexpected error fetching issue data: " ++ m))

/-- The decorated `fetch_issue_html`: the retry wrapper applied to the
function whose body already converts every exception (`op n` is what the
`urlopen`/`json.loads` block yields on attempt `n`). -/
def fetch_issue_html (op : Nat → Except PyExc α) : RetryResult α :=
  retry_on_transient_errors (fun attempt => fetchIssueAttempt (op attempt))

/-! ## Attachment downloader (`download_attachment`, `download_attachments`) -/

/-- A `pathlib.Path` destination as the downloader uses it: its final
component (`.name`) and the `str(path.absolute())` rendering. -/
structure PyPath where
  name : Str
  absStr : Str
deriving DecidableEq, Repr

/-- The metadata dict returned by `download_attachment`. -/
structure DownloadRecord where
  source_url : Str
  file_type : Str
  file_size : Str
  file_size_bytes : Nat
  file_location : Str
  filename : Str
  success : Bool
  error : Option Str
deriving DecidableEq, Repr

/-- `url.split('?')[0] if '?' in url else url`. -/
def stripQuery (url : Str) : Str := url.takeWhile (fun c => c != '?')

/-- `PurePath.suffix` of a final path component: `name[i:]` for the last dot
at position `i` with `0 < i < len(name) - 1`, else the empty string. -/
def pathSuffix (name : Str) : Str :=
  match name.reverse.findIdx? (fun c => c == '.') with
  | some j =>
    let i := name.length - 1 - j
    if 0 < i ∧ i < name.length - 1 then name.drop i else []
  | none => []

/-- `output_path.suffix.lstrip('.').lower() if output_path.suffix else 'unknown'`. -/
def pathFileType (p : PyPath) : Str :=
  let sfx := pathSuffix p.name
  if sfx.isEmpty then strOf "unknown"
  else (sfx.dropWhile (fun c => c == '.')).map Char.toLower

/-- The value `n * 10 / den` rounded to the nearest tenth; integer
approximation of the source's float division with `:.1f` formatting (exact
formatting of binary floats is not modelled; no claim depends on this
branch). -/
def fmtTenths (n den : Nat) (unit : String) : Str :=
  let t := (n * 10 + den / 2) / den
  strOf (toString (t / 10)) ++ '.' :: (strOf (toString (t % 10)) ++ ' ' :: strOf unit)

/-- `format_file_size`: bytes below 1024 exactly, then KB/MB/GB with one
decimal place. -/
def format_file_size (size_bytes : Nat) : Str :=
  if size_bytes < 1024 then strOf (toString size_bytes) ++ strOf " B"
  else if size_bytes < 1024 * 1024 then fmtTenths size_bytes 1024 "KB"
  else if size_bytes < 1024 * 1024 * 1024 then fmtTenths size_bytes (1024 * 1024) "MB"
  else fmtTenths size_bytes (1024 * 1024 * 1024) "GB"

/-- The `error_msg` built by each failure handler of `download_attachment`. -/
def errMsgOf : PyExc → Str
  | .httpError c r => strOf ("HTTP " ++ toString c ++ ": " ++ r)
  | .urlError r => strOf ("Network error: " ++ r)
  | .timeoutError => strOf "Download timed out (30 seconds)"
  | .osError m => strOf ("Filesystem error: " ++ m)
  | .jsonError m => strOf ("Unexpected error: " ++ m)
  | .otherError m => strOf ("Unexpected error: " ++ m)

/-- `download_attachment`: `outcome` is the overall result of the `try` block
(directory creation, the retry-wrapped `_download_file`, and the file write —
the handlers only see the exception type, so the block is modelled by its
outcome).  A success yields the full record; every exception yields a
`success=False` record with zeroed size fields and a non-empty error
message. -/
def download_attachment (url : Str) (output_path : PyPath)
    (outcome : Except PyExc (List Nat)) : DownloadRecord :=
  match outcome with
  | .ok file_data =>
    { source_url := stripQuery url,
      file_type := pathFileType output_path,
      file_size := format_file_size file_data.length,
      file_size_bytes := file_data.length,
      file_location := output_path.absStr,
      filename := output_path.name,
      success := true,
      error := none }
  | .error e =>
    { source_url := stripQuery url,
      file_type := strOf "unknown",
      file_size := strOf "0 B",
      file_size_bytes := 0,
      file_location := output_path.absStr,
      filename := output_path.name,
      success := false,
      error := some (errMsgOf e) }

/-- One entry of `download_metadata`: the per-file record tagged with its
origin (`'issue'`/`'comment'`) and source id. -/
structure TaggedRecord where
  source : Str
  source_id : Nat
  record : DownloadRecord
deriving DecidableEq, Repr

/-- The mutable state of `download_attachments`' loops: the accumulated
`download_metadata` list and the four counters. -/
structure DlAcc where
  metadata : List TaggedRecord
  total : Nat
  downloaded : Nat
  failed : Nat
  size : Nat
deriving DecidableEq, Repr

/-- An attachment paired with the outcome its download would produce (the
environment of one `download_attachment` call). -/
abbrev DlItem := Attachment × Except PyExc (List Nat)

/-- The record built for one issue-body attachment:
`output_path = issue_attachments_dir / filename`, tagged `source='issue'`
with the issue number. -/
def issueRecOf (issueNumber : Nat) (issueDir : Str) (item : DlItem) : TaggedRecord :=
  { source := strOf "issue", source_id := issueNumber,
    record := download_attachment item.1.url
      ⟨item.1.filename, issueDir ++ '/' :: item.1.filename⟩ item.2 }

/-- The record built for one comment attachment:
`output_path = comments_attachments_dir / str(comment_id) / filename`,
tagged `source='comment'` with the comment id. -/
def commentRecOf (commentsDir : Str) (commentId : Nat) (item : DlItem) : TaggedRecord :=
  { source := strOf "comment", source_id := commentId,
    record := download_attachment item.1.url
      ⟨item.1.filename,
       commentsDir ++ '/' :: (strOf (toString commentId) ++ '/' :: item.1.filename)⟩
      item.2 }

/-- One iteration of a download loop: append the record and update the
counters exactly as the source does. -/
def dlStep (mk : DlItem → TaggedRecord) (acc : DlAcc) (it : DlItem) : DlAcc :=
  let r := mk it
  { metadata := acc.metadata ++ [r],
    total := acc.total + 1,
    downloaded := if r.record.success then acc.downloaded + 1 else acc.downloaded,
    failed := if r.record.success then acc.failed else acc.failed + 1,
    size := if r.record.success then acc.size + r.record.file_size_bytes else acc.size }

/-- `download_attachments`: the issue-body loop followed by the per-comment
loops, threading the shared accumulator. -/
def download_attachments (issueNumber : Nat) (issueDir commentsDir : Str)
    (issueAtts : List DlItem) (comments : List (Nat × List DlItem)) : DlAcc :=
  let acc1 := issueAtts.foldl (dlStep (issueRecOf issueNumber issueDir))
    { metadata := [], total := 0, downloaded := 0, failed := 0, size := 0 }
  comments.foldl
    (fun acc c => c.2.foldl (dlStep (commentRecOf commentsDir c.1)) acc) acc1

/-! ## Priority classification (`collect-issue-stats.py`, open-issue loop) -/

/-- The five priority buckets of the statistics collector. -/
inductive Priority where
  | critical
  | high
  | medium
  | low
  | unprioritized
deriving DecidableEq, Repr

/-- `label['name'].lower()` (ASCII model of `str.lower`). -/
def pyLower (s : Str) : Str := s.map Char.toLower

/-- The label loop of the priority classification: `'critical'` breaks
immediately; `'high'` always overwrites; `'medium'`/`'low'` apply only from
the `'unprioritized'` default. -/
def classifyLoop : List Str → Priority → Priority
  | [], p => p
  | l :: rest, p =>
    let name := pyLower l
    if hasSub name (strOf "critical") then Priority.critical
    else if hasSub name (strOf "high") then classifyLoop rest Priority.high
    else if hasSub name (strOf "medium") && (p == Priority.unprioritized) then
      classifyLoop rest Priority.medium
    else if hasSub name (strOf "low") && (p == Priority.unprioritized) then
      classifyLoop rest Priority.low
    else classifyLoop rest p

/-- Priority of an open issue from its label names, starting from the
`'unprioritized'` default. -/
def classify_priority (labels : List Str) : Priority :=
  classifyLoop labels Priority.unprioritized

/-! ## Concrete scenarios used by the claim theorems -/

/-- An issue-fetch attempt stream: a single transient 503 on the first
attempt, success afterwards. -/
def op503once : Nat → Except PyExc Nat :=
  fun n => if n = 1 then .error (.httpError 503 "Service Unavailable") else .ok 0

/-- An operation failing with HTTP 503 on every attempt. -/
def opAll503 : Nat → Except PyExc Nat :=
  fun _ => .error (.httpError 503 "Service Unavailable")

/-- An operation failing with HTTP 503 on the first two attempts and
succeeding on the third. -/
def op503twice : Nat → Except PyExc Nat :=
  fun n => if n = 1 then .error (.httpError 503 "one")
    else if n = 2 then .error (.httpError 503 "two") else .ok 7

/-- An operation failing with HTTP 404 on every attempt. -/
def op404 : Nat → Except PyExc Nat :=
  fun _ => .error (.httpError 404 "Not Found")

/-- An operation raising a non-HTTP, non-URL exception on every attempt. -/
def opRuntimeErr : Nat → Except PyExc Nat :=
  fun _ => .error (.otherError "boom")

/-- A URL whose host is NOT an attachment domain but whose path mentions
one: the allow-list substring test accepts it. -/
def evilUrl : Str :=
  strOf "https://evil.example/user-attachments.githubusercontent.com/a.png"

/-- A genuine attachment URL on an allow-listed host. -/
def goodUrl : Str :=
  strOf "https://user-attachments.githubusercontent.com/assets/ab12.png"

/-- The `a`-tag event referencing `evilUrl`. -/
def evilLinkEvent : TagEvent := ⟨strOf "a", [(strOf "href", evilUrl)]⟩

/-- The `a`-tag event referencing `goodUrl`. -/
def goodLinkEvent : TagEvent := ⟨strOf "a", [(strOf "href", goodUrl)]⟩

/-- The attachment produced for `goodLinkEvent`. -/
def goodLinkAttachment : Attachment :=
  { url := goodUrl, filename := strOf "ab12.png", file_type := strOf "png",
    dimensions := none, tag_type := strOf "a" }

/-- Two URLs identical before the `?` whose query strings contain a
path-like segment: the filename regexes match inside the query. -/
def queryUrlA : Str :=
  strOf "https://user-attachments.githubusercontent.com/files/x?p=/aaa.png"

/-- As `queryUrlA` with a different query string. -/
def queryUrlB : Str :=
  strOf "https://user-attachments.githubusercontent.com/files/x?p=/bbb.png"

/-- A pre-query URL prefix on which the first filename regex succeeds. -/
def stablePrefix : Str := strOf "https://host/abc-1.png"

/-- The repository identifier of the pagination scenario. -/
def specRepo : Str := strOf "owner/repo"

/-- The comments backend of the pagination scenario: pages 1 and 2 answer
with a `next` continuation, page 3 without one, later pages are empty; every
request succeeds on its first attempt. -/
def scenarioBackend (c1 c2 c3 : List RawComment) :
    Str → Nat → Except PyExc (List RawComment × Bool) :=
  fun url _ =>
    if url = commentsUrl specRepo 42 1 then .ok (c1, true)
    else if url = commentsUrl specRepo 42 2 then .ok (c2, true)
    else if url = commentsUrl specRepo 42 3 then .ok (c3, false)
    else .ok ([], false)

/-- A page of `n` distinct comments (ids offset by `base`). -/
def mkPage (base n : Nat) : List RawComment :=
  (List.range n).map (fun i => ⟨base + i, none, [], [], []⟩)

/-! ## Theorems -/

/-- Every outcome of `fetchIssueAttempt` is non-transient: the conversion
layer of `fetch_issue_html` leaves nothing for the retry decorator to
retry. -/
theorem fetchIssueAttempt_not_transient (r : Except PyExc α) :
    isTransientResult (fetchIssueAttempt r) = false := by
  cases r with
  | ok v => rfl
  | error e =>
    cases e with
    | httpError c s =>
      simp only [fetchIssueAttempt]
      split_ifs <;> rfl
    | urlError r => rfl
    | timeoutError => rfl
    | osError m => rfl
    | jsonError m => rfl
    | otherError m => rfl

/-- Claim C1 (code bug): because the body of `fetch_issue_html` converts
every `HTTPError`/`URLError` into a `RuntimeError` before the
`@retry_on_transient_errors` decorator can classify it, the decorated issue
fetch makes exactly one call and never sleeps, for every behaviour of the
underlying request; concretely, a single transient 503 on the first attempt
aborts the fetch with a `RuntimeError`, even though the bare retry wrapper
would have recovered on attempt 2. -/
theorem c1_issue_fetch_never_retries :
    (∀ (α : Type) (op : Nat → Except PyExc α),
      (fetch_issue_html op).calls = 1 ∧ (fetch_issue_html op).sleeps = []) ∧
    (fetch_issue_html op503once).calls = 1 ∧
    (fetch_issue_html op503once).result =
      .error (.otherError "HTTP error 503: Service Unavailable") ∧
    retry_on_transient_errors op503once = ⟨.ok 0, 2, [1]⟩ := by
  refine ⟨?_, rfl, rfl, rfl⟩
  intro α op
  have hnt := fetchIssueAttempt_not_transient (op 1)
  unfold fetch_issue_html retry_on_transient_errors
  cases hr : fetchIssueAttempt (op 1) with
  | ok v =>
    simp [MAX_RETRIES, INITIAL_RETRY_DELAY, retryAux, hr]
  | error e =>
    rw [hr] at hnt
    simp only [isTransientResult] at hnt
    simp [MAX_RETRIES, INITIAL_RETRY_DELAY, retryAux, hr, hnt]

/-- Claim C3 counterexample: an operation failing with HTTP 503 on every
attempt is called 5 times but the waits between attempts are 1, 2, 4 and 8
seconds — the list of delays is not the claimed `[1, 2, 4, 8, 16]`, because
the fifth attempt is the last and the doubled 16-second delay is never
slept. -/
theorem c3_sleeps_counterexample :
    (retry_on_transient_errors opAll503).sleeps = [1, 2, 4, 8] ∧
    (retry_on_transient_errors opAll503).sleeps ≠ [1, 2, 4, 8, 16] ∧
    (retry_on_transient_errors opAll503).calls = 5 := by
  refine ⟨rfl, ?_, rfl⟩
  have hs : (retry_on_transient_errors opAll503).sleeps = [1, 2, 4, 8] := rfl
  rw [hs]
  decide

/-- Claim C3 (amended): an operation failing transiently on every attempt is
called exactly 5 times, the waits between consecutive attempts are 1, 2, 4
and 8 seconds (four waits between five attempts; the doubled 16-second delay
is computed but never slept), and the failure of the final attempt is
re-raised. -/
theorem c3_retry_exhaustion_amended (α : Type) (op : Nat → Except PyExc α)
    (h : ∀ n, 1 ≤ n → n ≤ 5 → isTransientResult (op n) = true) :
    (retry_on_transient_errors op).calls = 5 ∧
    (retry_on_transient_errors op).sleeps = [1, 2, 4, 8] ∧
    (retry_on_transient_errors op).result = op 5 := by
  have sh : ∀ n, 1 ≤ n → n ≤ 5 → ∃ e, op n = .error e ∧ isTransientExc e = true := by
    intro n hn1 hn5
    have hres := h n hn1 hn5
    cases he : op n with
    | ok v => rw [he] at hres; simp [isTransientResult] at hres
    | error e => rw [he] at hres; exact ⟨e, rfl, hres⟩
  obtain ⟨e1, h1, t1⟩ := sh 1 (by decide) (by decide)
  obtain ⟨e2, h2, t2⟩ := sh 2 (by decide) (by decide)
  obtain ⟨e3, h3, t3⟩ := sh 3 (by decide) (by decide)
  obtain ⟨e4, h4, t4⟩ := sh 4 (by decide) (by decide)
  obtain ⟨e5, h5, t5⟩ := sh 5 (by decide) (by decide)
  refine ⟨?_, ?_, ?_⟩ <;>
    simp [retry_on_transient_errors, MAX_RETRIES, INITIAL_RETRY_DELAY,
      RETRY_BACKOFF_MULTIPLIER, retryAux, h1, h2, h3, h4, h5, t1, t2, t3, t4, t5]

/-- Witness for C3 (amended) at the always-503 operation. -/
theorem c3_retry_exhaustion_amended_witness :
    (retry_on_transient_errors opAll503).calls = 5 ∧
    (retry_on_transient_errors opAll503).sleeps = [1, 2, 4, 8] ∧
    (retry_on_transient_errors opAll503).result = opAll503 5 :=
  c3_retry_exhaustion_amended Nat opAll503 (fun _ _ _ => rfl)

/-- Claim C4: an operation failing with 503 on the first two calls and
succeeding on the third is retried exactly twice (three calls), its success
value is returned, and the total wait is 1+2 = 3 seconds; an operation
failing with any non-transient HTTP status is called exactly once and its
error propagates with no sleeps. -/
theorem c4_retry_transient_then_success (α : Type) :
    (∀ (op : Nat → Except PyExc α) (v : α) (r1 r2 : String),
      op 1 = .error (.httpError 503 r1) → op 2 = .error (.httpError 503 r2) →
      op 3 = .ok v →
      retry_on_transient_errors op = ⟨.ok v, 3, [1, 2]⟩ ∧
      3 ≤ (retry_on_transient_errors op).sleeps.sum) ∧
    (∀ (op : Nat → Except PyExc α) (c : Nat) (r : String),
      op 1 = .error (.httpError c r) → c ≠ 502 → c ≠ 503 → c ≠ 504 →
      retry_on_transient_errors op = ⟨.error (.httpError c r), 1, []⟩) := by
  constructor
  · intro op v r1 r2 h1 h2 h3
    have hres : retry_on_transient_errors op = ⟨.ok v, 3, [1, 2]⟩ := by
      simp [retry_on_transient_errors, MAX_RETRIES, INITIAL_RETRY_DELAY,
        RETRY_BACKOFF_MULTIPLIER, retryAux, h1, h2, h3, isTransientExc]
    rw [hres]
    exact ⟨rfl, by simp⟩
  · intro op c r h1 hc2 hc3 hc4
    simp [retry_on_transient_errors, MAX_RETRIES, INITIAL_RETRY_DELAY,
      retryAux, h1, isTransientExc, hc2, hc3, hc4]

/-- Witness for C4: the 503-503-ok operation and the always-404 operation. -/
theorem c4_retry_transient_then_success_witness :
    (retry_on_transient_errors op503twice = ⟨.ok 7, 3, [1, 2]⟩ ∧
      3 ≤ (retry_on_transient_errors op503twice).sleeps.sum) ∧
    retry_on_transient_errors op404 = ⟨.error (.httpError 404 "Not Found"), 1, []⟩ :=
  ⟨(c4_retry_transient_then_success Nat).1 op503twice 7 "one" "two" rfl rfl rfl,
   (c4_retry_transient_then_success Nat).2 op404 404 "Not Found" rfl
     (by decide) (by decide) (by decide)⟩

/-- Claim C10: an operation whose first call raises anything other than an
`HTTPError` or `URLError` is called exactly once, with no sleep, and the
exception propagates unchanged; conversely, whenever the wrapper makes a
second call, the first call raised an `HTTPError` or `URLError`. -/
theorem c10_only_http_url_retried (α : Type) :
    (∀ (op : Nat → Except PyExc α) (e : PyExc),
      op 1 = .error e → isHttpOrUrlExc e = false →
      retry_on_transient_errors op = ⟨.error e, 1, []⟩) ∧
    (∀ (op : Nat → Except PyExc α),
      2 ≤ (retry_on_transient_errors op).calls →
      ∃ e, op 1 = .error e ∧ isHttpOrUrlExc e = true) := by
  constructor
  · intro op e h1 hn
    have ht : isTransientExc e = false := by
      cases e <;> simp_all [isHttpOrUrlExc, isTransientExc]
    simp [retry_on_transient_errors, MAX_RETRIES, INITIAL_RETRY_DELAY,
      retryAux, h1, ht]
  · intro op hcalls
    cases h1 : op 1 with
    | ok v =>
      simp [retry_on_transient_errors, MAX_RETRIES, INITIAL_RETRY_DELAY,
        retryAux, h1] at hcalls
    | error e =>
      cases ht : isTransientExc e with
      | false =>
        simp [retry_on_transient_errors, MAX_RETRIES, INITIAL_RETRY_DELAY,
          retryAux, h1, ht] at hcalls
      | true =>
        refine ⟨e, rfl, ?_⟩
        cases e <;> simp_all [isTransientExc, isHttpOrUrlExc]

/-- Witness for C10: a `RuntimeError`-raising operation is not retried; the
always-503 operation does trigger a second call, and its first failure is an
`HTTPError`. -/
theorem c10_only_http_url_retried_witness :
    (retry_on_transient_errors opRuntimeErr = ⟨.error (.otherError "boom"), 1, []⟩) ∧
    (∃ e, opAll503 1 = .error e ∧ isHttpOrUrlExc e = true) :=
  ⟨(c10_only_http_url_retried Nat).1 opRuntimeErr (.otherError "boom") rfl rfl,
   (c10_only_http_url_retried Nat).2 opAll503 (by decide)⟩

/-- Any attachment emitted by `handle_starttag` passed the
`_is_attachment_url` test on its URL. -/
theorem handle_starttag_qualifies (ev : TagEvent) (a : Attachment)
    (h : handle_starttag ev = some a) : is_attachment_url a.url = true := by
  rw [handle_starttag] at h
  by_cases himg : ev.tag = strOf "img"
  · rw [if_pos himg] at h
    dsimp only at h
    by_cases hq : is_attachment_url (pyDictGetD ev.attrs (strOf "src")) = true
    · rw [if_pos hq] at h
      injection h with h2
      subst h2
      exact hq
    · rw [if_neg hq] at h
      exact absurd h (by simp)
  · rw [if_neg himg] at h
    by_cases ha : ev.tag = strOf "a"
    · rw [if_pos ha] at h
      dsimp only at h
      by_cases hq : is_attachment_url (pyDictGetD ev.attrs (strOf "href")) = true
      · rw [if_pos hq] at h
        injection h with h2
        subst h2
        exact hq
      · rw [if_neg hq] at h
        exact absurd h (by simp)
    · rw [if_neg ha] at h
      exact absurd h (by simp)

/-- An attachment tagged `'a'` carries no dimensions. -/
theorem handle_starttag_a_no_dims (ev : TagEvent) (a : Attachment)
    (h : handle_starttag ev = some a) (htag : a.tag_type = strOf "a") :
    a.dimensions = none := by
  rw [handle_starttag] at h
  by_cases himg : ev.tag = strOf "img"
  · rw [if_pos himg] at h
    dsimp only at h
    by_cases hq : is_attachment_url (pyDictGetD ev.attrs (strOf "src")) = true
    · rw [if_pos hq] at h
      injection h with h2
      subst h2
      simp [strOf] at htag
    · rw [if_neg hq] at h
      exact absurd h (by simp)
  · rw [if_neg himg] at h
    by_cases ha : ev.tag = strOf "a"
    · rw [if_pos ha] at h
      dsimp only at h
      by_cases hq : is_attachment_url (pyDictGetD ev.attrs (strOf "href")) = true
      · rw [if_pos hq] at h
        injection h with h2
        subst h2
        rfl
      · rw [if_neg hq] at h
        exact absurd h (by simp)
    · rw [if_neg ha] at h
      exact absurd h (by simp)

/-- Every attachment in the extraction output passed the URL test. -/
theorem extract_mem_qualifies (events : List TagEvent) (a : Attachment)
    (hmem : a ∈ extract_attachments_from_html events) :
    is_attachment_url a.url = true := by
  rw [extract_attachments_from_html] at hmem
  by_cases hevs : events.isEmpty
  · rw [if_pos hevs] at hmem
    exact absurd hmem (by simp)
  · rw [if_neg hevs] at hmem
    obtain ⟨ev, _, hev⟩ := List.mem_filterMap.mp hmem
    exact handle_starttag_qualifies ev a hev

/-- Claim C2 counterexample: an `a` tag whose `href` has host
`evil.example` — not an allow-listed host, and not containing any
allow-listed domain — still appears in the extraction output, because
`_is_attachment_url` only tests whether a domain string occurs anywhere in
the URL, and here one occurs in the path. -/
theorem c2_host_allowlist_counterexample :
    (extract_attachments_from_html [evilLinkEvent]).map (fun a => a.url) = [evilUrl] ∧
    specUrlHost evilUrl = strOf "evil.example" ∧
    specUrlHost evilUrl ∉ attachment_domains ∧
    (∀ d ∈ attachment_domains, hasSub (specUrlHost evilUrl) d = false) := by
  exact ⟨rfl, rfl, by decide, by decide⟩

/-- Claim C2 (amended): a URL qualifies as an attachment iff it is nonempty
and one of the fixed allow-list of domain strings occurs as a substring
anywhere in the URL (not necessarily in its host); consequently a URL
containing no allow-listed domain string never appears in the extraction
output, regardless of tag type. -/
theorem c2_substring_allowlist_amended :
    (∀ url, is_attachment_url url = true ↔
      (url ≠ [] ∧ attachment_domains.any (fun d => hasSub url d) = true)) ∧
    (∀ (events : List TagEvent) (a : Attachment),
      a ∈ extract_attachments_from_html events →
      a.url ≠ [] ∧ attachment_domains.any (fun d => hasSub a.url d) = true) := by
  have hspec : ∀ url : Str, is_attachment_url url = true ↔
      (url ≠ [] ∧ attachment_domains.any (fun d => hasSub url d) = true) := by
    intro url
    constructor
    · intro h
      rw [is_attachment_url] at h
      by_cases hurl : url.isEmpty
      · rw [if_pos hurl] at h
        exact absurd h (by decide)
      · refine ⟨by simpa using hurl, by rwa [if_neg hurl] at h⟩
    · rintro ⟨hne, hany⟩
      rw [is_attachment_url, if_neg (by simpa using hne)]
      exact hany
  refine ⟨hspec, fun events a hmem => (hspec a.url).mp ?_⟩
  exact extract_mem_qualifies events a hmem

/-- Witness for C2 (amended) at a genuine attachment link. -/
theorem c2_substring_allowlist_witness :
    goodLinkAttachment.url ≠ [] ∧
    attachment_domains.any (fun d => hasSub goodLinkAttachment.url d) = true :=
  c2_substring_allowlist_amended.2 [goodLinkEvent] goodLinkAttachment (by decide)

/-- Claim C9: an `img` tag with allow-listed `src` declaring
`width="800" height="600"` yields both dimensions; declaring only
`width="800"` yields the width only; declaring no size attributes yields no
dimensions; non-numeric values are silently dropped (yielding the other
dimension, or nothing when none parses); and an `a`-tag attachment never
carries dimensions. -/
theorem c9_dimensions (u : Str) (hu : is_attachment_url u = true) :
    ((extract_attachments_from_html
      [⟨strOf "img", [(strOf "src", u), (strOf "width", strOf "800"),
        (strOf "height", strOf "600")]⟩]).map (fun a => a.dimensions)
      = [some ⟨some 800, some 600⟩]) ∧
    ((extract_attachments_from_html
      [⟨strOf "img", [(strOf "src", u), (strOf "width", strOf "800")]⟩]).map
      (fun a => a.dimensions) = [some ⟨some 800, none⟩]) ∧
    ((extract_attachments_from_html
      [⟨strOf "img", [(strOf "src", u)]⟩]).map (fun a => a.dimensions) = [none]) ∧
    ((extract_attachments_from_html
      [⟨strOf "img", [(strOf "src", u), (strOf "width", strOf "abc"),
        (strOf "height", strOf "600")]⟩]).map (fun a => a.dimensions)
      = [some ⟨none, some 600⟩]) ∧
    ((extract_attachments_from_html
      [⟨strOf "img", [(strOf "src", u), (strOf "width", strOf "abc")]⟩]).map
      (fun a => a.dimensions) = [none]) ∧
    (∀ (events : List TagEvent) (a : Attachment),
      a ∈ extract_attachments_from_html events → a.tag_type = strOf "a" →
      a.dimensions = none) := by
  refine ⟨?_, ?_, ?_, ?_, ?_, ?_⟩
  · have hsrc : pyDictGetD [(strOf "src", u), (strOf "width", strOf "800"),
        (strOf "height", strOf "600")] (strOf "src") = u := rfl
    have hdim : extract_dimensions [(strOf "src", u), (strOf "width", strOf "800"),
        (strOf "height", strOf "600")] = some ⟨some 800, some 600⟩ := rfl
    simp [extract_attachments_from_html, handle_starttag, hsrc, hu, hdim]
  · have hsrc : pyDictGetD [(strOf "src", u), (strOf "width", strOf "800")]
        (strOf "src") = u := rfl
    have hdim : extract_dimensions [(strOf "src", u), (strOf "width", strOf "800")]
        = some ⟨some 800, none⟩ := rfl
    simp [extract_attachments_from_html, handle_starttag, hsrc, hu, hdim]
  · have hsrc : pyDictGetD [(strOf "src", u)] (strOf "src") = u := rfl
    have hdim : extract_dimensions [(strOf "src", u)] = none := rfl
    simp [extract_attachments_from_html, handle_starttag, hsrc, hu, hdim]
  · have hsrc : pyDictGetD [(strOf "src", u), (strOf "width", strOf "abc"),
        (strOf "height", strOf "600")] (strOf "src") = u := rfl
    have hdim : extract_dimensions [(strOf "src", u), (strOf "width", strOf "abc"),
        (strOf "height", strOf "600")] = some ⟨none, some 600⟩ := rfl
    simp [extract_attachments_from_html, handle_starttag, hsrc, hu, hdim]
  · have hsrc : pyDictGetD [(strOf "src", u), (strOf "width", strOf "abc")]
        (strOf "src") = u := rfl
    have hdim : extract_dimensions [(strOf "src", u), (strOf "width", strOf "abc")]
        = none := rfl
    simp [extract_attachments_from_html, handle_starttag, hsrc, hu, hdim]
  · intro events a hmem htag
    rw [extract_attachments_from_html] at hmem
    by_cases hevs : events.isEmpty
    · rw [if_pos hevs] at hmem
      exact absurd hmem (by simp)
    · rw [if_neg hevs] at hmem
      obtain ⟨ev, _, hev⟩ := List.mem_filterMap.mp hmem
      exact handle_starttag_a_no_dims ev a hev htag

/-- Witness for C9 at a concrete allow-listed URL and a concrete `a` tag. -/
theorem c9_dimensions_witness :
    ((extract_attachments_from_html
      [⟨strOf "img", [(strOf "src", goodUrl), (strOf "width", strOf "800"),
        (strOf "height", strOf "600")]⟩]).map (fun a => a.dimensions)
      = [some ⟨some 800, some 600⟩]) ∧
    goodLinkAttachment.dimensions = none := by
  have h := c9_dimensions goodUrl (by decide)
  exact ⟨h.1, h.2.2.2.2.2 [goodLinkEvent] goodLinkAttachment (by decide) (by decide)⟩

/-- `takeWhile` ignores everything from a failing element on. -/
theorem takeWhile_append_stop (p : Char → Bool) (hd : Char) (hhd : p hd = false)
    (a b : Str) : (a ++ hd :: b).takeWhile p = a.takeWhile p := by
  induction a with
  | nil => simp [List.takeWhile_cons, hhd]
  | cons c rest ih =>
    by_cases hc : p c
    · simp [List.takeWhile_cons, hc, ih]
    · simp [List.takeWhile_cons, hc]

/-- `dropWhile` stops no later than a failing element. -/
theorem dropWhile_append_stop (p : Char → Bool) (hd : Char) (hhd : p hd = false)
    (a b : Str) : (a ++ hd :: b).dropWhile p = a.dropWhile p ++ hd :: b := by
  induction a with
  | nil => simp [List.dropWhile_cons, hhd]
  | cons c rest ih =>
    by_cases hc : p c
    · simp [List.dropWhile_cons, hc, ih]
    · simp [List.dropWhile_cons, hc]

/-- The regex terminator `(?:\?|$)` cannot see past a `?`. -/
theorem matchFin_append_query (g x q : Str) :
    matchFin g (x ++ '?' :: q) = matchFin g x := by
  cases x with
  | nil => rfl
  | cons t r => rfl

/-- The post-dot part of the first filename pattern cannot see past a `?`. -/
theorem match1Tail_append_query (arun x q : Str) :
    match1Tail arun (x ++ '?' :: q) = match1Tail arun x := by
  cases x with
  | nil => rfl
  | cons d r2 =>
    show match1Tail arun (d :: (r2 ++ '?' :: q)) = match1Tail arun (d :: r2)
    rw [match1Tail, match1Tail]
    by_cases hd : d = '.'
    · rw [if_pos hd, if_pos hd]
      rw [takeWhile_append_stop isWordChar '?' rfl r2 q]
      rw [dropWhile_append_stop isWordChar '?' rfl r2 q]
      by_cases hwrun : r2.takeWhile isWordChar = []
      · rw [if_pos hwrun, if_pos hwrun]
      · rw [if_neg hwrun, if_neg hwrun]
        exact matchFin_append_query _ _ q
    · rw [if_neg hd, if_neg hd]

/-- A match of the first filename pattern starting before a `?` is decided
entirely by the text before that `?`. -/
theorem match1At_append_query (x q : Str) :
    match1At (x ++ '?' :: q) = match1At x := by
  cases x with
  | nil => rfl
  | cons c rest =>
    show match1At (c :: (rest ++ '?' :: q)) = match1At (c :: rest)
    rw [match1At, match1At]
    by_cases hc : c = '/'
    · rw [if_pos hc, if_pos hc]
      rw [takeWhile_append_stop isHexLD '?' rfl rest q]
      rw [dropWhile_append_stop isHexLD '?' rfl rest q]
      by_cases harun : rest.takeWhile isHexLD = []
      · rw [if_pos harun, if_pos harun]
      · rw [if_neg harun, if_neg harun]
        exact match1Tail_append_query _ _ q
    · rw [if_neg hc, if_neg hc]

/-- A match of the fallback filename pattern starting before a `?` is decided
entirely by the text before that `?`. -/
theorem match2At_append_query (x q : Str) :
    match2At (x ++ '?' :: q) = match2At x := by
  cases x with
  | nil => rfl
  | cons c rest =>
    show match2At (c :: (rest ++ '?' :: q)) = match2At (c :: rest)
    rw [match2At, match2At]
    by_cases hc : c = '/'
    · rw [if_pos hc, if_pos hc]
      rw [takeWhile_append_stop isSegChar '?' rfl rest q]
      rw [dropWhile_append_stop isSegChar '?' rfl rest q]
      by_cases hseg : rest.takeWhile isSegChar = []
      · rw [if_pos hseg, if_pos hseg]
      · rw [if_neg hseg, if_neg hseg]
        exact matchFin_append_query _ _ q
    · rw [if_neg hc, if_neg hc]

/-- Searching for the first filename pattern in `prefix ++ '?' ++ query`
first exhausts the prefix positions and only then (when the prefix has no
match) continues inside the query string. -/
theorem search1_append_query (p q : Str) :
    search1 (p ++ '?' :: q) =
      match search1 p with
      | some g => some g
      | none => search1 q := by
  induction p with
  | nil =>
    show search1 ('?' :: q) = search1 q
    rw [search1]
    have h1 : match1At ('?' :: q) = none := rfl
    rw [h1]
  | cons c rest ih =>
    show search1 (c :: (rest ++ '?' :: q)) = _
    rw [search1]
    rw [show c :: (rest ++ '?' :: q) = (c :: rest) ++ '?' :: q from rfl]
    rw [match1At_append_query (c :: rest) q]
    rw [search1]
    cases hm : match1At (c :: rest) with
    | some g => rfl
    | none => exact ih

/-- Same for the fallback filename pattern. -/
theorem search2_append_query (p q : Str) :
    search2 (p ++ '?' :: q) =
      match search2 p with
      | some g => some g
      | none => search2 q := by
  induction p with
  | nil =>
    show search2 ('?' :: q) = search2 q
    rw [search2]
    have h1 : match2At ('?' :: q) = none := rfl
    rw [h1]
  | cons c rest ih =>
    show search2 (c :: (rest ++ '?' :: q)) = _
    rw [search2]
    rw [show c :: (rest ++ '?' :: q) = (c :: rest) ++ '?' :: q from rfl]
    rw [match2At_append_query (c :: rest) q]
    rw [search2]
    cases hm : match2At (c :: rest) with
    | some g => rfl
    | none => exact ih

/-- Claim C7 (amended): filename derivation first tries the hex/UUID
segment-plus-extension pattern, then falls back to the last path segment
pattern, and returns `'unknown_file'` when both fail; and it is idempotent
under query-string variation whenever the first pattern already matches in
the part before the `?` — both regexes are anchored to a `?` or the end of
the string, so when the pre-query part has no match they can match inside
the query string and the result may depend on it. -/
theorem c7_filename_idempotence_amended :
    (∀ (p q1 q2 g : Str),
      (∀ c ∈ p, c ≠ '?') → search1 p = some g →
      extract_filename (p ++ '?' :: q1) = g ∧
      extract_filename (p ++ '?' :: q2) = g ∧
      extract_filename p = g) ∧
    (∀ url g, search1 url = some g → extract_filename url = g) ∧
    (∀ url g, search1 url = none → search2 url = some g →
      extract_filename url = g) ∧
    (∀ url, search1 url = none → search2 url = none →
      extract_filename url = strOf "unknown_file") := by
  refine ⟨?_, ?_, ?_, ?_⟩
  · intro p q1 q2 g hnoq hs
    refine ⟨?_, ?_, ?_⟩
    · rw [extract_filename, search1_append_query p q1, hs]
    · rw [extract_filename, search1_append_query p q2, hs]
    · rw [extract_filename, hs]
  · intro url g hs
    rw [extract_filename, hs]
  · intro url g hs1 hs2
    rw [extract_filename, hs1, hs2]
  · intro url hs1 hs2
    rw [extract_filename, hs1, hs2]

/-- Claim C7 counterexample: two URLs identical up to the `?` whose query
strings contain a path-like segment receive different filenames — the
pre-query parts are equal (under the source's own query stripping) yet the
derived filenames differ, so the general idempotence claim is false and
query content (such as a token) can leak into the filename. -/
theorem c7_query_dependent_counterexample :
    extract_filename queryUrlA = strOf "aaa.png" ∧
    extract_filename queryUrlB = strOf "bbb.png" ∧
    extract_filename queryUrlA ≠ extract_filename queryUrlB ∧
    stripQuery queryUrlA = stripQuery queryUrlB := by
  refine ⟨rfl, rfl, ?_, rfl⟩
  rw [show extract_filename queryUrlA = strOf "aaa.png" from rfl,
    show extract_filename queryUrlB = strOf "bbb.png" from rfl]
  decide

/-- Witness for C7 (amended) at a prefix on which the first pattern
matches: two different query strings yield the same filename. -/
theorem c7_filename_idempotence_witness :
    extract_filename (stablePrefix ++ '?' :: strOf "token=X") = strOf "abc-1.png" ∧
    extract_filename (stablePrefix ++ '?' :: strOf "token=Y") = strOf "abc-1.png" ∧
    extract_filename stablePrefix = strOf "abc-1.png" := by
  have h := c7_filename_idempotence_amended.1 stablePrefix (strOf "token=X")
    (strOf "token=Y") (strOf "abc-1.png") (by decide) (by decide)
  exact ⟨h.1, h.2.1, h.2.2⟩

/-- A label containing `'critical'` forces the critical bucket from any
intermediate state: the loop breaks the moment it sees one. -/
theorem classifyLoop_critical (ls : List Str) :
    ∀ p, ls.any (fun l => hasSub (pyLower l) (strOf "critical")) = true →
      classifyLoop ls p = Priority.critical := by
  induction ls with
  | nil => intro p h; simp at h
  | cons l rest ih =>
    intro p h
    rw [classifyLoop]
    by_cases hc : hasSub (pyLower l) (strOf "critical") = true
    · rw [if_pos hc]
    · rw [if_neg hc]
      have hrest : rest.any (fun l => hasSub (pyLower l) (strOf "critical")) = true := by
        simp only [List.any_cons, Bool.or_eq_true] at h
        rcases h with h | h
        · exact absurd h hc
        · exact h
      split_ifs <;> exact ih _ hrest

/-- Once the state is `high`, only a `'critical'` label could change it. -/
theorem classifyLoop_high_stays (ls : List Str)
    (h : ∀ l ∈ ls, hasSub (pyLower l) (strOf "critical") = false) :
    classifyLoop ls Priority.high = Priority.high := by
  induction ls with
  | nil => rfl
  | cons l rest ih =>
    rw [classifyLoop]
    have hc : ¬ hasSub (pyLower l) (strOf "critical") = true := by
      simp [h l (List.mem_cons_self l rest)]
    rw [if_neg hc]
    have hrest : ∀ l2 ∈ rest, hasSub (pyLower l2) (strOf "critical") = false :=
      fun l2 hm => h l2 (List.mem_cons_of_mem l hm)
    by_cases hh : hasSub (pyLower l) (strOf "high") = true
    · rw [if_pos hh]; exact ih hrest
    · rw [if_neg hh]
      have hmed : (hasSub (pyLower l) (strOf "medium") &&
          (Priority.high == Priority.unprioritized)) ≠ true := by simp
      have hlow : (hasSub (pyLower l) (strOf "low") &&
          (Priority.high == Priority.unprioritized)) ≠ true := by simp
      rw [if_neg hmed, if_neg hlow]
      exact ih hrest

/-- Without any `'critical'` label, a `'high'` label anywhere drives the loop
to `high` from every non-critical intermediate state. -/
theorem classifyLoop_high (ls : List Str) :
    ∀ p, p ≠ Priority.critical →
      (∀ l ∈ ls, hasSub (pyLower l) (strOf "critical") = false) →
      ls.any (fun l => hasSub (pyLower l) (strOf "high")) = true →
      classifyLoop ls p = Priority.high := by
  induction ls with
  | nil => intro p _ _ hany; simp at hany
  | cons l rest ih =>
    intro p hp hcrit hany
    rw [classifyLoop]
    have hc : ¬ hasSub (pyLower l) (strOf "critical") = true := by
      simp [hcrit l (List.mem_cons_self l rest)]
    rw [if_neg hc]
    have hcrest : ∀ l2 ∈ rest, hasSub (pyLower l2) (strOf "critical") = false :=
      fun l2 hm => hcrit l2 (List.mem_cons_of_mem l hm)
    by_cases hh : hasSub (pyLower l) (strOf "high") = true
    · rw [if_pos hh]
      exact classifyLoop_high_stays rest hcrest
    · rw [if_neg hh]
      have hrest : rest.any (fun l => hasSub (pyLower l) (strOf "high")) = true := by
        simp only [List.any_cons, Bool.or_eq_true] at hany
        rcases hany with h | h
        · exact absurd h hh
        · exact h
      split_ifs with h1 h2
      · exact ih Priority.medium (by decide) hcrest hrest
      · exact ih Priority.low (by decide) hcrest hrest
      · exact ih p hp hcrest hrest

/-- Claim C8: any label whose (lowercased) name contains `'critical'` yields
the critical priority regardless of its position — a later `'high'` label
never downgrades it; and in the absence of critical labels, any `'high'`
label yields the high priority, upgrading from the default or from an
earlier `'medium'`/`'low'`. -/
theorem c8_priority_precedence :
    (∀ labels : List Str,
      labels.any (fun l => hasSub (pyLower l) (strOf "critical")) = true →
      classify_priority labels = Priority.critical) ∧
    (∀ labels : List Str,
      (∀ l ∈ labels, hasSub (pyLower l) (strOf "critical") = false) →
      labels.any (fun l => hasSub (pyLower l) (strOf "high")) = true →
      classify_priority labels = Priority.high) :=
  ⟨fun labels h => classifyLoop_critical labels Priority.unprioritized h,
   fun labels hcrit hhigh =>
     classifyLoop_high labels Priority.unprioritized (by decide) hcrit hhigh⟩

/-- Witness for C8: a critical label after a high one wins; a high label
after a medium one upgrades. -/
theorem c8_priority_precedence_witness :
    classify_priority [strOf "high", strOf "a CRITICAL bug"] = Priority.critical ∧
    classify_priority [strOf "medium", strOf "High priority"] = Priority.high :=
  ⟨c8_priority_precedence.1 _ (by decide),
   c8_priority_precedence.2 _ (by decide) (by decide)⟩

/-- Claim C5: with 3 comment pages of 100/100/37 items, `next` markers on
pages 1 and 2 and none on page 3, the fetch makes exactly 3 page requests
(1-indexed, at the fixed page size baked into `commentsUrl`) and returns all
237 comments in their original order; and the loop stops exactly at a page
with zero items or no continuation marker. -/
theorem c5_pagination :
    (∀ (c1 c2 c3 : List RawComment) (k : Nat),
      c1.length = 100 → c2.length = 100 → c3.length = 37 →
      fetch_comments_html specRepo 42 (scenarioBackend c1 c2 c3) (k + 3)
        = some (.ok ((c1 ++ c2 ++ c3).map processComment), 3) ∧
      ((c1 ++ c2 ++ c3).map processComment).length = 237) ∧
    (∀ (pf : Str → Except PyExc (List RawComment × Bool)) (fuel : Nat) (hn : Bool),
      pf (commentsUrl specRepo 42 1) = .ok ([], hn) →
      fetchCommentsAux specRepo 42 pf (fuel + 1) 1 = some (.ok [], 1)) ∧
    (∀ (pf : Str → Except PyExc (List RawComment × Bool)) (fuel : Nat)
      (d : List RawComment),
      pf (commentsUrl specRepo 42 1) = .ok (d, false) → d ≠ [] →
      fetchCommentsAux specRepo 42 pf (fuel + 1) 1
        = some (.ok (d.map processComment), 1)) := by
  refine ⟨?_, ?_, ?_⟩
  · intro c1 c2 c3 k h1 h2 h3
    have hne21 : commentsUrl specRepo 42 2 ≠ commentsUrl specRepo 42 1 := by decide
    have hne31 : commentsUrl specRepo 42 3 ≠ commentsUrl specRepo 42 1 := by decide
    have hne32 : commentsUrl specRepo 42 3 ≠ commentsUrl specRepo 42 2 := by decide
    have hp1 : (retry_on_transient_errors
        (scenarioBackend c1 c2 c3 (commentsUrl specRepo 42 1))).result
        = .ok (c1, true) := by
      simp [retry_on_transient_errors, MAX_RETRIES, INITIAL_RETRY_DELAY,
        retryAux, scenarioBackend]
    have hp2 : (retry_on_transient_errors
        (scenarioBackend c1 c2 c3 (commentsUrl specRepo 42 2))).result
        = .ok (c2, true) := by
      simp [retry_on_transient_errors, MAX_RETRIES, INITIAL_RETRY_DELAY,
        retryAux, scenarioBackend, hne21]
    have hp3 : (retry_on_transient_errors
        (scenarioBackend c1 c2 c3 (commentsUrl specRepo 42 3))).result
        = .ok (c3, false) := by
      simp [retry_on_transient_errors, MAX_RETRIES, INITIAL_RETRY_DELAY,
        retryAux, scenarioBackend, hne31, hne32]
    constructor
    · cases c1 with
      | nil => simp at h1
      | cons a1 t1 =>
        cases c2 with
        | nil => simp at h2
        | cons a2 t2 =>
          cases c3 with
          | nil => simp at h3
          | cons a3 t3 =>
            rw [fetch_comments_html]
            simp [fetchCommentsAux, hp1, hp2, hp3]
    · simp [List.length_map, List.length_append, h1, h2, h3]
  · intro pf fuel hn h
    simp [fetchCommentsAux, h]
  · intro pf fuel d h hne
    cases d with
    | nil => exact absurd rfl hne
    | cons a t => simp [fetchCommentsAux, h]

/-- Witness for C5 at concrete pages of 100, 100 and 37 comments. -/
theorem c5_pagination_witness :
    fetch_comments_html specRepo 42
      (scenarioBackend (mkPage 0 100) (mkPage 100 100) (mkPage 200 37)) 3
      = some (.ok ((mkPage 0 100 ++ mkPage 100 100 ++ mkPage 200 37).map
          processComment), 3) ∧
    ((mkPage 0 100 ++ mkPage 100 100 ++ mkPage 200 37).map processComment).length
      = 237 :=
  c5_pagination.1 (mkPage 0 100) (mkPage 100 100) (mkPage 200 37) 0
    (by simp [mkPage]) (by simp [mkPage]) (by simp [mkPage])

/-- Every failure handler of `download_attachment` builds a non-empty error
message. -/
theorem errMsgOf_ne_nil (e : PyExc) : errMsgOf e ≠ [] := by
  cases e <;> simp [errMsgOf, strOf, List.append_eq_nil]

/-- One download loop appends exactly one record per item, in order, each
depending only on its own item. -/
theorem dl_foldl_metadata (mk : DlItem → TaggedRecord) (l : List DlItem) :
    ∀ acc, (l.foldl (dlStep mk) acc).metadata = acc.metadata ++ l.map mk := by
  induction l with
  | nil => intro acc; simp
  | cons it rest ih =>
    intro acc
    rw [List.foldl_cons, ih]
    simp [dlStep]

/-- One download loop counts every item. -/
theorem dl_foldl_total (mk : DlItem → TaggedRecord) (l : List DlItem) :
    ∀ acc, (l.foldl (dlStep mk) acc).total = acc.total + l.length := by
  induction l with
  | nil => intro acc; simp
  | cons it rest ih =>
    intro acc
    rw [List.foldl_cons, ih]
    simp [dlStep]
    omega

/-- Each item is counted as downloaded or failed, never both. -/
theorem dl_foldl_df (mk : DlItem → TaggedRecord) (l : List DlItem) :
    ∀ acc, (l.foldl (dlStep mk) acc).downloaded + (l.foldl (dlStep mk) acc).failed
      = acc.downloaded + acc.failed + l.length := by
  induction l with
  | nil => intro acc; simp
  | cons it rest ih =>
    intro acc
    rw [List.foldl_cons, ih]
    by_cases hs : ((mk it).record).success
    · simp [dlStep, hs]
      omega
    · simp [dlStep, hs]
      omega

/-- The per-comment loops append one record per comment attachment, in
comment order then attachment order. -/
theorem dl_comments_metadata (cdir : Str) (comments : List (Nat × List DlItem)) :
    ∀ acc, (comments.foldl
        (fun (acc : DlAcc) (c : Nat × List DlItem) => c.2.foldl (dlStep (commentRecOf cdir c.1)) acc) acc).metadata
      = acc.metadata
        ++ (comments.map (fun c => c.2.map (commentRecOf cdir c.1))).flatten := by
  induction comments with
  | nil => intro acc; simp
  | cons c rest ih =>
    intro acc
    rw [List.foldl_cons, ih, dl_foldl_metadata]
    simp

/-- The per-comment loops count every comment attachment. -/
theorem dl_comments_total (cdir : Str) (comments : List (Nat × List DlItem)) :
    ∀ acc, (comments.foldl
        (fun (acc : DlAcc) (c : Nat × List DlItem) => c.2.foldl (dlStep (commentRecOf cdir c.1)) acc) acc).total
      = acc.total + (comments.map (fun c => c.2.length)).sum := by
  induction comments with
  | nil => intro acc; simp
  | cons c rest ih =>
    intro acc
    rw [List.foldl_cons, ih, dl_foldl_total]
    simp
    omega

/-- Downloaded/failed bookkeeping across the per-comment loops. -/
theorem dl_comments_df (cdir : Str) (comments : List (Nat × List DlItem)) :
    ∀ acc, (comments.foldl
          (fun (acc : DlAcc) (c : Nat × List DlItem) => c.2.foldl (dlStep (commentRecOf cdir c.1)) acc) acc).downloaded
        + (comments.foldl
          (fun (acc : DlAcc) (c : Nat × List DlItem) => c.2.foldl (dlStep (commentRecOf cdir c.1)) acc) acc).failed
      = acc.downloaded + acc.failed + (comments.map (fun c => c.2.length)).sum := by
  induction comments with
  | nil => intro acc; simp
  | cons c rest ih =>
    intro acc
    rw [List.foldl_cons, ih, dl_foldl_df]
    simp
    omega

/-- Claim C6: the download phase produces exactly one `DownloadRecord` per
discovered attachment, in discovery order (issue-body attachments first,
then comment attachments in comment order), each record depending only on
its own attachment's outcome — so one failure never aborts the batch; every
failing download yields `success = false`, `file_size_bytes = 0`, the
placeholder size `'0 B'`, the populated output location, and a non-empty
error message, while every successful download yields `success = true` with
the written byte count. -/
theorem c6_download_records (n : Nat) (idir cdir : Str) (iatts : List DlItem)
    (comments : List (Nat × List DlItem)) :
    (download_attachments n idir cdir iatts comments).metadata
      = iatts.map (issueRecOf n idir)
        ++ (comments.map (fun c => c.2.map (commentRecOf cdir c.1))).flatten ∧
    (download_attachments n idir cdir iatts comments).total
      = iatts.length + (comments.map (fun c => c.2.length)).sum ∧
    (download_attachments n idir cdir iatts comments).downloaded
        + (download_attachments n idir cdir iatts comments).failed
      = (download_attachments n idir cdir iatts comments).total ∧
    (∀ (url : Str) (p : PyPath) (e : PyExc),
      (download_attachment url p (.error e)).success = false ∧
      (download_attachment url p (.error e)).file_size_bytes = 0 ∧
      (download_attachment url p (.error e)).file_size = strOf "0 B" ∧
      (download_attachment url p (.error e)).file_location = p.absStr ∧
      (download_attachment url p (.error e)).error = some (errMsgOf e) ∧
      errMsgOf e ≠ []) ∧
    (∀ (url : Str) (p : PyPath) (data : List Nat),
      (download_attachment url p (.ok data)).success = true ∧
      (download_attachment url p (.ok data)).file_size_bytes = data.length) := by
  refine ⟨?_, ?_, ?_, ?_, ?_⟩
  · rw [download_attachments]
    rw [dl_comments_metadata, dl_foldl_metadata]
    simp
  · rw [download_attachments]
    rw [dl_comments_total, dl_foldl_total]
    simp
  · rw [download_attachments]
    rw [dl_comments_df, dl_foldl_df, dl_comments_total, dl_foldl_total]
    simp
  · intro url p e
    exact ⟨rfl, rfl, rfl, rfl, rfl, errMsgOf_ne_nil e⟩
  · intro url p data
    exact ⟨rfl, rfl⟩
